import Mathlib

/-!
Shallow embedding of the close/save/session-quit coordination logic of
`sugar/activity/activity.py` (class `Activity` and `_ActivitySession`).

State is the per-instance flag state plus the journal object; every method
is a pure function from a state (and an environment capturing the
user-overridable hooks and external services) to a new state together with a
trace of observable events (datastore writes, dialogs, session reports,
boolean-flag assignments to `_closing`).
-/

namespace SugarActivity

/-- A journal object (`self._jobject`): datastore id, file path, metadata. -/
structure JObject where
  objectId : Option Nat
  filePath : Option String
  metadata : List (String × String)
  deriving Repr, DecidableEq

/-- The per-instance flag state of an `Activity`:
`_active`, `_closing`, `_quit_requested`, `_updating_jobject`, `_owns_file`,
`_spent_time` and the journal object `_jobject`. -/
structure ActivityState where
  active : Bool
  closing : Bool
  quitRequested : Bool
  updatingJobject : Bool
  ownsFile : Bool
  spentTime : Nat
  jobject : Option JObject
  deriving Repr, DecidableEq

/-- Outcome of the user-overridable `write_file` hook: the default raises
`NotImplementedError` (caught inside `save`), an override may create the
file or not, or raise some other exception (which propagates out of
`save`). -/
inductive WriteFileResult where
  | notImplemented : WriteFileResult
  | ok : Bool → WriteFileResult
  | error : WriteFileResult
  deriving Repr, DecidableEq

/-- Environment of one call: the user-overridable `can_close` predicate,
the behaviour of `write_file`, the buddies dictionary serialisations
(`none` when the dict is empty), the optional preview image, the activity
id, the instance file path `save` would use, and the elapsed active time
accumulated by `_update_spent_time`. -/
structure Env where
  canClose : Bool
  writeFile : WriteFileResult
  buddies : Option (String × String)
  preview : Option String
  activityId : String
  instancePath : String
  elapsed : Nat
  deriving Repr, DecidableEq

/-- Observable events of one call tree. -/
inductive Event where
  | saveCalled : Event
  | closeCalled : Bool → Event
  | setClosing : Bool → Event
  | datastoreWriteSync : Event
  | datastoreWriteAsync : Event
  | addAlertButton : String → Event
  | showKeepFailedDialog : Event
  | removeAlert : Event
  | completeClose : Event
  | willQuit : Bool → Event
  | xsmpWillQuit : Bool → Event
  | setCursor : Event
  | emitClosing : Event
  | raiseRuntime : Event
  deriving Repr, DecidableEq

/-- Index of the first occurrence of an event in a trace. -/
def firstIdx (tr : List Event) (e : Event) : Option Nat :=
  match tr with
  | [] => none
  | a :: rest => if a = e then some 0 else (firstIdx rest e).map (· + 1)

/-- Order test: `occursBefore tr e1 e2` holds when both events occur in `tr` and the
first occurrence of `e1` precedes the first occurrence of `e2`. -/
def occursBefore (tr : List Event) (e1 e2 : Event) : Bool :=
  match firstIdx tr e1, firstIdx tr e2 with
  | some i, some j => decide (i < j)
  | _, _ => false

/-- The alert-button labels recorded in a trace, in order. -/
def buttonLabels (tr : List Event) : List String :=
  tr.filterMap fun e =>
    match e with
    | Event.addAlertButton l => some l
    | _ => none

/-- Python dict update `md[k] = v` on the metadata association list. -/
def mdSet : List (String × String) → String → String → List (String × String)
  | [], k, v => [(k, v)]
  | (k0, v0) :: rest, k, v =>
      if k0 = k then (k, v) :: rest else (k0, v0) :: mdSet rest k v

/-- Python dict lookup `md.get(k)`. -/
def mdGet : List (String × String) → String → Option String
  | [], _ => none
  | (k0, v0) :: rest, k => if k0 = k then some v0 else mdGet rest k

/-- Python dict lookup with a default empty string, `md.get` with default. -/
def mdGetD (md : List (String × String)) (k : String) : String :=
  (mdGet md k).getD ""

/-- Python string split with separator comma-space, on the character list of
a string: split at each non-overlapping occurrence of the separator,
scanning left to right. -/
def splitCommaSpace : List Char → List (List Char)
  | [] => [[]]
  | ',' :: ' ' :: rest => [] :: splitCommaSpace rest
  | c :: rest =>
      match splitCommaSpace rest with
      | [] => [[c]]
      | g :: gs => (c :: g) :: gs

/-- Python string join with separator comma-space. -/
def joinCommaSpace : List (List Char) → List Char
  | [] => []
  | [g] => g
  | g :: gs => g ++ ',' :: ' ' :: joinCommaSpace gs

/-- Function `set_last_value` from `Activity.save`: replace the last
comma-separated entry of `values_list` with `new_value` (the Python
no-separator-present test is exactly `parts.length ≤ 1`). -/
def set_last_value (values_list : String) (new_value : Nat) : String :=
  let parts := splitCommaSpace values_list.data
  if parts.length ≤ 1 then toString new_value
  else String.mk (joinCommaSpace parts.dropLast) ++ ", " ++ toString new_value

/-- The final `datastore.write` step of `Activity.save`: a synchronous write
for creates (no object id), an asynchronous write (setting
`_updating_jobject`) otherwise. -/
def saveWrite (j : JObject) (s : ActivityState) :
    ActivityState × List Event × Bool :=
  match j.objectId with
  | none => ({ s with jobject := some j }, [Event.datastoreWriteSync], false)
  | some _ =>
      ({ s with jobject := some j, updatingJobject := true },
       [Event.datastoreWriteAsync], false)

/-- Body of `Activity.save` after the two guard clauses: metadata updates
(buddies, spent-times, preview, activity_id), the `write_file` call, then
the datastore write.  The `Bool` of the result is `true` when the call
raised (an exception from `write_file` other than `NotImplementedError`);
state updates made before the raise persist. -/
def saveBody (env : Env) (j : JObject) (s : ActivityState) :
    ActivityState × List Event × Bool :=
  let md := j.metadata
  let md := match env.buddies with
    | some bp => mdSet (mdSet md "buddies_id" bp.1) "buddies" bp.2
    | none => md
  let spent := if s.active then s.spentTime + env.elapsed else s.spentTime
  let md := mdSet md "spent-times" (set_last_value (mdGetD md "spent-times") spent)
  let md := match env.preview with
    | some p => mdSet md "preview" p
    | none => md
  let md := if mdGetD md "activity_id" = "" then mdSet md "activity_id" env.activityId else md
  let j1 : JObject := { j with metadata := md }
  let s1 : ActivityState := { s with spentTime := spent }
  match env.writeFile with
  | WriteFileResult.error => ({ s1 with jobject := some j1 }, [], true)
  | WriteFileResult.notImplemented => saveWrite j1 s1
  | WriteFileResult.ok created =>
      if created then
        saveWrite { j1 with filePath := some env.instancePath }
          { s1 with ownsFile := true }
      else saveWrite j1 s1

/-- Embedding of `Activity.save`: return immediately when there is no journal object or
when an asynchronous write is still pending; otherwise run the body.  The
`Bool` of the result is `true` when the call raised. -/
def save (env : Env) (s : ActivityState) : ActivityState × List Event × Bool :=
  match s.jobject with
  | none => (s, [Event.saveCalled], false)
  | some j =>
      if s.updatingJobject then (s, [Event.saveCalled], false)
      else
        let r := saveBody env j s
        (r.1, Event.saveCalled :: r.2.1, r.2.2)

/-- Embedding of `Activity.can_close`: user-overridable veto predicate (default `True`). -/
def can_close (env : Env) : Bool :=
  env.canClose

/-- Embedding of `Activity._show_keep_failed_dialog`: the recovery alert with its two
buttons. -/
def show_keep_failed_dialog : List Event :=
  [Event.addAlertButton "Dont stop", Event.addAlertButton "Stop anyway",
   Event.showKeepFailedDialog]

/-- Embedding of `Activity._prepare_close`: unless saving is skipped, call `save`; when
it raises, show the recovery dialog and return `false` (abort); otherwise
set `_closing` and return `true`. -/
def prepare_close (env : Env) (skipSave : Bool) (s : ActivityState) :
    ActivityState × List Event × Bool :=
  if skipSave then
    ({ s with closing := true }, [Event.setClosing true], true)
  else
    let r := save env s
    if r.2.2 then (r.1, r.2.1 ++ show_keep_failed_dialog, false)
    else ({ r.1 with closing := true }, r.2.1 ++ [Event.setClosing true], true)

/-- Embedding of `Activity._cleanup_jobject`: drop file ownership and destroy the
journal object. -/
def cleanup_jobject (s : ActivityState) : ActivityState :=
  match s.jobject with
  | some _ => { s with ownsFile := false, jobject := none }
  | none => s

/-- Embedding of `Activity._complete_close`: destroy the window, clean up the journal
object, unregister from the session. -/
def complete_close (s : ActivityState) : ActivityState × List Event :=
  (cleanup_jobject s, [Event.completeClose])

/-- Embedding of `Activity.close`: veto via `can_close`; otherwise set the busy cursor,
emit the closing signal, run `_prepare_close` unless a close is already in
progress, and finalize via `_complete_close` unless an asynchronous journal
write is pending. -/
def close (env : Env) (skipSave : Bool) (s : ActivityState) :
    ActivityState × List Event :=
  if can_close env then
    let hdr : List Event := [Event.closeCalled skipSave, Event.setCursor, Event.emitClosing]
    let r := if s.closing then (s, ([], true)) else prepare_close env skipSave s
    if r.2.2 then
      if r.1.updatingJobject then (r.1, hdr ++ r.2.1)
      else
        let c := complete_close r.1
        (c.1, hdr ++ r.2.1 ++ c.2)
    else (r.1, hdr ++ r.2.1)
  else (s, [Event.closeCalled skipSave])

/-- Embedding of `Activity.__session_quit_requested_cb`: mark `_quit_requested`, run
`_prepare_close`, and report readiness to quit when the close may proceed
and no asynchronous write is pending. -/
def session_quit_requested_cb (env : Env) (s : ActivityState) :
    ActivityState × List Event :=
  let s0 : ActivityState := { s with quitRequested := true }
  let r := prepare_close env false s0
  if r.2.2 && !r.1.updatingJobject then (r.1, r.2.1 ++ [Event.willQuit true])
  else (r.1, r.2.1)

/-- Embedding of `Activity.__save_cb`: successful completion of the asynchronous
datastore write. -/
def save_cb (s : ActivityState) : ActivityState × List Event :=
  let s1 : ActivityState := { s with updatingJobject := false }
  if s1.quitRequested then (s1, [Event.willQuit true])
  else if s1.closing then
    let c := complete_close s1
    (c.1, c.2)
  else (s1, [])

/-- Embedding of `Activity.__save_error_cb`: failed completion of the asynchronous
datastore write; clears the pending flag, reports refusal when a quit was
requested, shows the recovery dialog and clears `_closing` when a close was
pending, then raises `RuntimeError`. -/
def save_error_cb (s : ActivityState) : ActivityState × List Event :=
  let s1 : ActivityState := { s with updatingJobject := false }
  let p1 : ActivityState × List Event :=
    if s1.quitRequested then (s1, [Event.willQuit false]) else (s1, [])
  let p2 : ActivityState × List Event :=
    if p1.1.closing then
      ({ p1.1 with closing := false },
       show_keep_failed_dialog ++ [Event.setClosing false])
    else (p1.1, [])
  (p2.1, p1.2 ++ p2.2 ++ [Event.raiseRuntime])

/-- Responses the recovery alert can produce: its two buttons. -/
inductive Response where
  | ok : Response
  | cancel : Response
  deriving Repr, DecidableEq

/-- Embedding of `Activity._keep_failed_dialog_response_cb`: remove the alert; on
`RESPONSE_OK` re-invoke `close` with saving skipped (and report readiness
when a quit was requested); otherwise report refusal when a quit was
requested. -/
def keep_failed_dialog_response_cb (env : Env) (s : ActivityState)
    (r : Response) : ActivityState × List Event :=
  match r with
  | Response.ok =>
      let c := close env true s
      if c.1.quitRequested then
        (c.1, Event.removeAlert :: c.2 ++ [Event.willQuit true])
      else (c.1, Event.removeAlert :: c.2)
  | Response.cancel =>
      if s.quitRequested then (s, [Event.removeAlert, Event.willQuit false])
      else (s, [Event.removeAlert])

/-- State of `_ActivitySession`: the registered activities and the set that
has agreed to quit, both as lists of activity identifiers. -/
structure SessionState where
  activities : List Nat
  willQuitAgreed : List Nat
  deriving Repr, DecidableEq

/-- Embedding of `_ActivitySession.will_quit`: on agreement record the activity and
forward `True` to the XSMP client only when every registered activity has
agreed; on refusal clear the agreed set and forward `False` immediately. -/
def session_will_quit (st : SessionState) (a : Nat) (w : Bool) :
    SessionState × List Event :=
  if w then
    let agreed := st.willQuitAgreed ++ [a]
    if st.activities.all (fun x => agreed.contains x) then
      ({ st with willQuitAgreed := agreed }, [Event.xsmpWillQuit true])
    else ({ st with willQuitAgreed := agreed }, [])
  else ({ st with willQuitAgreed := [] }, [Event.xsmpWillQuit false])

/-! ### Concrete instances used to exhibit behaviours -/

/-- A journal object already in the datastore (writes go asynchronously). -/
def jAsync : JObject :=
  { objectId := some 7, filePath := none, metadata := [("spent-times", "0")] }

/-- A journal object not yet in the datastore (creates write
synchronously). -/
def jNew : JObject :=
  { objectId := none, filePath := none, metadata := [("spent-times", "0")] }

/-- Baseline flag state over a given journal object: running activity,
nothing pending. -/
def s0 (j : Option JObject) : ActivityState :=
  { active := true, closing := false, quitRequested := false,
    updatingJobject := false, ownsFile := false, spentTime := 0, jobject := j }

/-- Baseline environment: close permitted, default `write_file`. -/
def envBase : Env :=
  { canClose := true, writeFile := WriteFileResult.notImplemented,
    buddies := none, preview := none, activityId := "aid",
    instancePath := "inst", elapsed := 5 }

/-- Environment whose `can_close` override vetoes the close. -/
def envVeto : Env := { envBase with canClose := false }

/-- Environment whose `write_file` override raises. -/
def envErr : Env := { envBase with writeFile := WriteFileResult.error }

/-- State in which an asynchronous journal write is pending. -/
def sPending : ActivityState := { s0 (some jAsync) with updatingJobject := true }

/-- State with a close pending and a quit requested while an asynchronous
write is in flight. -/
def sBoth : ActivityState :=
  { s0 (some jAsync) with
    closing := true,
    quitRequested := true,
    updatingJobject := true }

/-- State in which a quit was requested earlier (for example after a failed
quit-save) but no close is in progress. -/
def sQuit : ActivityState := { s0 (some jAsync) with quitRequested := true }

/-- A session with two registered activities, one of which has agreed to
quit. -/
def stSession : SessionState := { activities := [1, 2], willQuitAgreed := [1] }

/-! ### Helper lemmas about `save` -/

/-- The trace of `save` is one of three concrete lists. -/
theorem save_events_shape (env : Env) (s : ActivityState) :
    (save env s).2.1 = [Event.saveCalled] ∨
    (save env s).2.1 = [Event.saveCalled, Event.datastoreWriteSync] ∨
    (save env s).2.1 = [Event.saveCalled, Event.datastoreWriteAsync] := by
  unfold save saveBody saveWrite
  cases hj : s.jobject with
  | none => simp
  | some j =>
    cases hu : s.updatingJobject
    · cases hw : env.writeFile with
      | notImplemented => cases ho : j.objectId <;> simp [ho]
      | ok created => cases created <;> cases ho : j.objectId <;> simp [ho]
      | error => simp
    · simp

/-- Frame lemma: `save` never touches `_active`, `_closing` or `_quit_requested`. -/
theorem save_frame (env : Env) (s : ActivityState) :
    (save env s).1.active = s.active ∧
    (save env s).1.closing = s.closing ∧
    (save env s).1.quitRequested = s.quitRequested := by
  unfold save saveBody saveWrite
  cases hj : s.jobject with
  | none => simp
  | some j =>
    cases hu : s.updatingJobject
    · cases hw : env.writeFile with
      | notImplemented => cases ho : j.objectId <;> simp [ho]
      | ok created => cases created <;> cases ho : j.objectId <;> simp [ho]
      | error => simp
    · simp

/-- When `save` raises, it has not set `_updating_jobject` or `_owns_file`
either (the raise happens before `write_file` succeeded and before the
datastore write). -/
theorem save_raised_frame (env : Env) (s : ActivityState)
    (h : (save env s).2.2 = true) :
    (save env s).1.updatingJobject = s.updatingJobject ∧
    (save env s).1.ownsFile = s.ownsFile := by
  cases hj : s.jobject with
  | none => simp [save, hj]
  | some j =>
    cases hu : s.updatingJobject
    · cases hw : env.writeFile with
      | notImplemented =>
        cases ho : j.objectId <;>
          simp [save, saveBody, saveWrite, hj, hu, hw, ho] at h
      | ok created =>
        cases created <;> cases ho : j.objectId <;>
          simp [save, saveBody, saveWrite, hj, hu, hw, ho] at h
      | error => simp [save, saveBody, hj, hu, hw]
    · simp [save, hj, hu]

/-- Frame lemma: `cleanup_jobject` leaves `_updating_jobject` alone. -/
theorem cleanup_jobject_updating (s : ActivityState) :
    (cleanup_jobject s).updatingJobject = s.updatingJobject := by
  cases h : s.jobject <;> simp [cleanup_jobject, h]

/-- Frame lemma: `cleanup_jobject` leaves `_closing` alone. -/
theorem cleanup_jobject_closing (s : ActivityState) :
    (cleanup_jobject s).closing = s.closing := by
  cases h : s.jobject <;> simp [cleanup_jobject, h]

/-- Frame lemma: `cleanup_jobject` leaves `_quit_requested` alone. -/
theorem cleanup_jobject_quit (s : ActivityState) :
    (cleanup_jobject s).quitRequested = s.quitRequested := by
  cases h : s.jobject <;> simp [cleanup_jobject, h]

/-! ### Claims -/

/-- C1: when the user-overridable `can_close` vetoes, `close` returns
immediately: the state is unchanged (none of `_closing`, `_quit_requested`,
`_updating_jobject` is set), `save` is not attempted and the close is not
finalized — the trace holds nothing but the invocation itself. -/
theorem C1_close_vetoed (env : Env) (skipSave : Bool) (s : ActivityState)
    (h : can_close env = false) :
    close env skipSave s = (s, [Event.closeCalled skipSave]) := by
  simp [close, h]

/-- C1 witness: the vetoing environment at a concrete state. -/
theorem C1_close_vetoed_witness :
    can_close envVeto = false ∧
    close envVeto false (s0 (some jAsync)) =
      (s0 (some jAsync), [Event.closeCalled false]) :=
  ⟨rfl, C1_close_vetoed envVeto false (s0 (some jAsync)) rfl⟩

/-- C2 (amended): in a non-vetoed `close` with no close already in
progress, `save` is attempted FIRST, and `_closing` is set to `true` only
after the save attempt — and only when `save` did not raise; when it
raises, `_closing` is never set. -/
theorem C2_close_saves_before_setting_closing (env : Env) (s : ActivityState)
    (h1 : can_close env = true) (h2 : s.closing = false) :
    Event.saveCalled ∈ (close env false s).2 ∧
    ((save env s).2.2 = false →
      occursBefore (close env false s).2 Event.saveCalled
        (Event.setClosing true) = true) ∧
    ((save env s).2.2 = true →
      Event.setClosing true ∉ (close env false s).2) := by
  cases hr : (save env s).2.2 <;>
    rcases save_events_shape env s with hs | hs | hs <;>
    cases hu : (save env s).1.updatingJobject <;>
    simp [close, h1, h2, prepare_close, hr, hs, hu,
      complete_close, show_keep_failed_dialog, occursBefore, firstIdx]

/-- C2 counterexample: at a concrete non-vetoed close with no close in
progress, both the save attempt and the setting of `_closing` occur, but
`_closing` is NOT set before `save` is attempted: the code saves first and
marks `_closing` afterwards. -/
theorem C2_counterexample :
    Event.saveCalled ∈ (close envBase false (s0 (some jAsync))).2 ∧
    Event.setClosing true ∈ (close envBase false (s0 (some jAsync))).2 ∧
    occursBefore (close envBase false (s0 (some jAsync))).2
      (Event.setClosing true) Event.saveCalled = false := by
  decide

/-- C2 witness: the amended ordering at a concrete input. -/
theorem C2_close_saves_before_setting_closing_witness :
    can_close envBase = true ∧ (s0 (some jAsync)).closing = false ∧
    (Event.saveCalled ∈ (close envBase false (s0 (some jAsync))).2 ∧
     ((save envBase (s0 (some jAsync))).2.2 = false →
       occursBefore (close envBase false (s0 (some jAsync))).2
         Event.saveCalled (Event.setClosing true) = true) ∧
     ((save envBase (s0 (some jAsync))).2.2 = true →
       Event.setClosing true ∉ (close envBase false (s0 (some jAsync))).2)) :=
  ⟨rfl, rfl,
   C2_close_saves_before_setting_closing envBase (s0 (some jAsync)) rfl rfl⟩

/-- C7: a `save` issued while `_updating_jobject` is pending returns
immediately: the whole state (journal metadata and file path included) is
unchanged, no datastore write event is issued, and nothing is raised. -/
theorem C7_save_reentrancy_guard (env : Env) (s : ActivityState)
    (h : s.updatingJobject = true) :
    save env s = (s, [Event.saveCalled], false) := by
  cases hj : s.jobject <;> simp [save, hj, h]

/-- C7 witness: a pending asynchronous write at a concrete state. -/
theorem C7_save_reentrancy_guard_witness :
    sPending.updatingJobject = true ∧
    save envBase sPending = (sPending, [Event.saveCalled], false) :=
  ⟨rfl, C7_save_reentrancy_guard envBase sPending rfl⟩

/-- C9: a `save` issued when there is no journal object returns
immediately: the state is unchanged, no datastore write event is issued,
and nothing is raised. -/
theorem C9_save_no_jobject (env : Env) (s : ActivityState)
    (h : s.jobject = none) :
    save env s = (s, [Event.saveCalled], false) := by
  simp [save, h]

/-- C9 witness: a concrete state with no journal object. -/
theorem C9_save_no_jobject_witness :
    (s0 none).jobject = none ∧
    save envBase (s0 none) = (s0 none, [Event.saveCalled], false) :=
  ⟨rfl, C9_save_no_jobject envBase (s0 none) rfl⟩

/-- C3 (amended): in a non-vetoed `close` with no close already in progress
and no quit requested, when `save` does not raise, the close is finalized
within the same invocation exactly when no asynchronous journal write is
pending afterwards; when one is pending, `close` returns without finalizing
and the success callback `__save_cb` of the asynchronous write finalizes
it. -/
theorem C3_close_finalization (env : Env) (s : ActivityState)
    (h1 : can_close env = true) (h2 : s.closing = false)
    (h3 : (save env s).2.2 = false) (h4 : s.quitRequested = false) :
    (Event.completeClose ∈ (close env false s).2 ↔
      (close env false s).1.updatingJobject = false) ∧
    ((close env false s).1.updatingJobject = true →
      Event.completeClose ∈ (save_cb (close env false s).1).2) := by
  have hf := save_frame env s
  rcases save_events_shape env s with hs | hs | hs <;>
    cases hu : (save env s).1.updatingJobject <;>
    simp [close, h1, h2, prepare_close, h3, hs, hu, complete_close,
      save_cb, cleanup_jobject_updating, hf.2.2, h4]

/-- C3 witness: a journal object already in the datastore, so the write is
asynchronous and the close is completed by the callback. -/
theorem C3_close_finalization_witness :
    can_close envBase = true ∧ (s0 (some jAsync)).closing = false ∧
    (save envBase (s0 (some jAsync))).2.2 = false ∧
    (s0 (some jAsync)).quitRequested = false ∧
    ((Event.completeClose ∈ (close envBase false (s0 (some jAsync))).2 ↔
       (close envBase false (s0 (some jAsync))).1.updatingJobject = false) ∧
     ((close envBase false (s0 (some jAsync))).1.updatingJobject = true →
       Event.completeClose ∈
         (save_cb (close envBase false (s0 (some jAsync))).1).2)) :=
  ⟨rfl, rfl, rfl, rfl,
   C3_close_finalization envBase (s0 (some jAsync)) rfl rfl rfl rfl⟩

/-- C3 counterexample: when a quit was requested earlier, a non-vetoed
close whose `save` succeeds with an asynchronous write pending returns
without finalizing — but the completion callback does NOT finalize the
close either (it only reports readiness to the session), so the close is
not completed by the asynchronous write completion callback. -/
theorem C3_counterexample :
    (save envBase sQuit).2.2 = false ∧
    (close envBase false sQuit).1.updatingJobject = true ∧
    Event.completeClose ∉ (close envBase false sQuit).2 ∧
    Event.completeClose ∉ (save_cb (close envBase false sQuit).1).2 := by
  decide

/-- C4 (amended): when `save` raises during a non-vetoed close, the
recovery prompt is shown, the close is not finalized in that invocation,
and `_closing` is left false; every coordination flag is unchanged — but
the journal metadata and spent-time updates `save` made before the failure
persist, so the state as a whole is not unchanged. -/
theorem C4_close_save_error (env : Env) (s : ActivityState)
    (h1 : can_close env = true) (h2 : s.closing = false)
    (h3 : (save env s).2.2 = true) :
    Event.showKeepFailedDialog ∈ (close env false s).2 ∧
    Event.completeClose ∉ (close env false s).2 ∧
    (close env false s).1.closing = false ∧
    (close env false s).1.active = s.active ∧
    (close env false s).1.quitRequested = s.quitRequested ∧
    (close env false s).1.updatingJobject = s.updatingJobject ∧
    (close env false s).1.ownsFile = s.ownsFile := by
  have hf := save_frame env s
  have hrf := save_raised_frame env s h3
  rcases save_events_shape env s with hs | hs | hs <;>
    simp [close, h1, h2, prepare_close, h3, hs, show_keep_failed_dialog,
      hf.1, hf.2.1, hf.2.2, hrf.1, hrf.2]

/-- C4 counterexample: a raising `write_file` at a concrete state: the
prompt is shown, the close is aborted with `_closing` false — but the state
is NOT unchanged (spent time and metadata were updated before the raise). -/
theorem C4_counterexample :
    Event.showKeepFailedDialog ∈ (close envErr false (s0 (some jAsync))).2 ∧
    Event.completeClose ∉ (close envErr false (s0 (some jAsync))).2 ∧
    (close envErr false (s0 (some jAsync))).1.closing = false ∧
    (close envErr false (s0 (some jAsync))).1 ≠ s0 (some jAsync) := by
  decide

/-- C4 witness: the amended claim at the concrete raising input. -/
theorem C4_close_save_error_witness :
    can_close envErr = true ∧ (s0 (some jAsync)).closing = false ∧
    (save envErr (s0 (some jAsync))).2.2 = true ∧
    (Event.showKeepFailedDialog ∈ (close envErr false (s0 (some jAsync))).2 ∧
     Event.completeClose ∉ (close envErr false (s0 (some jAsync))).2 ∧
     (close envErr false (s0 (some jAsync))).1.closing = false ∧
     (close envErr false (s0 (some jAsync))).1.active = (s0 (some jAsync)).active ∧
     (close envErr false (s0 (some jAsync))).1.quitRequested =
       (s0 (some jAsync)).quitRequested ∧
     (close envErr false (s0 (some jAsync))).1.updatingJobject =
       (s0 (some jAsync)).updatingJobject ∧
     (close envErr false (s0 (some jAsync))).1.ownsFile =
       (s0 (some jAsync)).ownsFile) :=
  ⟨rfl, rfl, rfl,
   C4_close_save_error envErr (s0 (some jAsync)) rfl rfl rfl⟩

/-- C5: a session quit request sets `_quit_requested` to true, attempts the
same save path as `close` (`_prepare_close`, hence `save`), and reports
readiness to quit exactly when the save completed synchronously (no raise
and no asynchronous write pending afterwards); readiness is never reported
while an asynchronous journal write is pending. -/
theorem C5_session_quit (env : Env) (s : ActivityState) :
    (session_quit_requested_cb env s).1.quitRequested = true ∧
    Event.saveCalled ∈ (session_quit_requested_cb env s).2 ∧
    (Event.willQuit true ∈ (session_quit_requested_cb env s).2 ↔
      ((save env { s with quitRequested := true }).2.2 = false ∧
       (save env { s with quitRequested := true }).1.updatingJobject = false)) := by
  have hf := save_frame env { s with quitRequested := true }
  cases hr : (save env { s with quitRequested := true }).2.2 <;>
    rcases save_events_shape env { s with quitRequested := true } with hs | hs | hs <;>
    cases hu : (save env { s with quitRequested := true }).1.updatingJobject <;>
    simp [session_quit_requested_cb, prepare_close, hr, hs, hu,
      show_keep_failed_dialog, hf.2.2]

/-- C5 witness: the quit request at a concrete state with an asynchronous
journal object: readiness is not reported. -/
theorem C5_session_quit_witness :
    (session_quit_requested_cb envBase (s0 (some jAsync))).1.quitRequested = true ∧
    Event.saveCalled ∈ (session_quit_requested_cb envBase (s0 (some jAsync))).2 ∧
    (Event.willQuit true ∈ (session_quit_requested_cb envBase (s0 (some jAsync))).2 ↔
      ((save envBase { s0 (some jAsync) with quitRequested := true }).2.2 = false ∧
       (save envBase { s0 (some jAsync) with
          quitRequested := true }).1.updatingJobject = false)) :=
  C5_session_quit envBase (s0 (some jAsync))

/-- C6 (amended): both asynchronous-completion callbacks clear
`_updating_jobject`.  On success, when a quit was requested the session is
told `True` and nothing else happens — even when a close was also pending,
the close is NOT finalized then; only otherwise is a pending close
finalized.  On failure, when a quit was requested the session is told
`False`; when a close was pending the recovery prompt is shown and
`_closing` cleared; a `RuntimeError` is raised; the failure callback never
finalizes the close. -/
theorem C6_async_completion (s : ActivityState) :
    (save_cb s).1.updatingJobject = false ∧
    (s.quitRequested = true → (save_cb s).2 = [Event.willQuit true]) ∧
    (s.quitRequested = false → s.closing = true →
      Event.completeClose ∈ (save_cb s).2) ∧
    (save_error_cb s).1.updatingJobject = false ∧
    (s.quitRequested = true → Event.willQuit false ∈ (save_error_cb s).2) ∧
    (s.closing = true → Event.showKeepFailedDialog ∈ (save_error_cb s).2 ∧
      (save_error_cb s).1.closing = false) ∧
    Event.completeClose ∉ (save_error_cb s).2 ∧
    Event.raiseRuntime ∈ (save_error_cb s).2 := by
  cases hq : s.quitRequested <;> cases hc : s.closing <;>
    simp [save_cb, save_error_cb, complete_close, show_keep_failed_dialog,
      cleanup_jobject_updating, hq, hc]

/-- C6 counterexample: the asynchronous write succeeds while BOTH a quit
was requested and a close was pending: the success callback only reports to
the session and the close is NOT finalized (the code uses `elif`). -/
theorem C6_counterexample :
    sBoth.closing = true ∧ sBoth.quitRequested = true ∧
    (save_cb sBoth).2 = [Event.willQuit true] ∧
    Event.completeClose ∉ (save_cb sBoth).2 := by
  decide

/-- C6 witness: the amended claim at the concrete both-pending state. -/
theorem C6_async_completion_witness :
    (save_cb sBoth).1.updatingJobject = false ∧
    (sBoth.quitRequested = true → (save_cb sBoth).2 = [Event.willQuit true]) ∧
    (sBoth.quitRequested = false → sBoth.closing = true →
      Event.completeClose ∈ (save_cb sBoth).2) ∧
    (save_error_cb sBoth).1.updatingJobject = false ∧
    (sBoth.quitRequested = true →
      Event.willQuit false ∈ (save_error_cb sBoth).2) ∧
    (sBoth.closing = true →
      Event.showKeepFailedDialog ∈ (save_error_cb sBoth).2 ∧
      (save_error_cb sBoth).1.closing = false) ∧
    Event.completeClose ∉ (save_error_cb sBoth).2 ∧
    Event.raiseRuntime ∈ (save_error_cb sBoth).2 :=
  C6_async_completion sBoth

/-- The `close` trace always records the invocation itself. -/
theorem close_called_mem (env : Env) (skipSave : Bool) (s : ActivityState) :
    Event.closeCalled skipSave ∈ (close env skipSave s).2 := by
  cases h : can_close env
  · simp [close, h]
  · cases hcl : s.closing <;> cases hsk : skipSave <;>
      cases hr : (save env s).2.2 <;>
      cases hu : (save env s).1.updatingJobject <;>
      cases hus : s.updatingJobject <;>
      simp [close, h, hcl, hsk, hr, hu, hus, prepare_close, complete_close,
        show_keep_failed_dialog]

/-- C8: the save-failure alert offers exactly the two buttons, in order
`Dont stop` (cancel) and `Stop anyway` (discard); choosing `Stop anyway`
re-invokes `close` with saving skipped; choosing `Dont stop` leaves the
state untouched — the activity stays open, the close is not finalized — and
reports refusal to quit exactly when a quit was requested. -/
theorem C8_keep_failed_dialog (env : Env) (s : ActivityState) :
    buttonLabels show_keep_failed_dialog = ["Dont stop", "Stop anyway"] ∧
    Event.closeCalled true ∈
      (keep_failed_dialog_response_cb env s Response.ok).2 ∧
    (keep_failed_dialog_response_cb env s Response.cancel).1 = s ∧
    Event.completeClose ∉
      (keep_failed_dialog_response_cb env s Response.cancel).2 ∧
    (Event.willQuit false ∈
        (keep_failed_dialog_response_cb env s Response.cancel).2 ↔
      s.quitRequested = true) := by
  refine ⟨by simp [buttonLabels, show_keep_failed_dialog], ?_, ?_, ?_, ?_⟩
  · have h := close_called_mem env true s
    cases hq : (close env true s).1.quitRequested <;>
      simp [keep_failed_dialog_response_cb, hq, h]
  · cases hq : s.quitRequested <;> simp [keep_failed_dialog_response_cb, hq]
  · cases hq : s.quitRequested <;> simp [keep_failed_dialog_response_cb, hq]
  · cases hq : s.quitRequested <;> simp [keep_failed_dialog_response_cb, hq]

/-- C8 witness: the dialog behaviour at a concrete state with a quit
requested. -/
theorem C8_keep_failed_dialog_witness :
    buttonLabels show_keep_failed_dialog = ["Dont stop", "Stop anyway"] ∧
    Event.closeCalled true ∈
      (keep_failed_dialog_response_cb envBase sBoth Response.ok).2 ∧
    (keep_failed_dialog_response_cb envBase sBoth Response.cancel).1 = sBoth ∧
    Event.completeClose ∉
      (keep_failed_dialog_response_cb envBase sBoth Response.cancel).2 ∧
    (Event.willQuit false ∈
        (keep_failed_dialog_response_cb envBase sBoth Response.cancel).2 ↔
      sBoth.quitRequested = true) :=
  C8_keep_failed_dialog envBase sBoth

/-- Characterisation of `will_quit` on agreement: the activity is recorded, and `True` is
forwarded exactly when the agreement check passes. -/
theorem session_will_quit_true (st : SessionState) (a : Nat) :
    session_will_quit st a true =
      ({ st with willQuitAgreed := st.willQuitAgreed ++ [a] },
       if st.activities.all (fun x => (st.willQuitAgreed ++ [a]).contains x)
       then [Event.xsmpWillQuit true] else []) := by
  cases hall : st.activities.all
      (fun x => (st.willQuitAgreed ++ [a]).contains x) <;>
    (simp only [session_will_quit, hall, if_true, if_false]; try rfl)

/-- C10: the will-quit negotiation of `_ActivitySession`: a refusal clears
the agreed set and forwards `False` to the session client immediately; an
agreement records the activity, and `True` is forwarded exactly when every
registered activity is then in the agreed set. -/
theorem C10_session_will_quit (st : SessionState) (a : Nat) :
    session_will_quit st a false =
      ({ st with willQuitAgreed := [] }, [Event.xsmpWillQuit false]) ∧
    (session_will_quit st a true).1.willQuitAgreed =
      st.willQuitAgreed ++ [a] ∧
    (Event.xsmpWillQuit true ∈ (session_will_quit st a true).2 ↔
      ∀ x ∈ st.activities, x ∈ st.willQuitAgreed ++ [a]) := by
  refine ⟨by simp [session_will_quit], ?_, ?_⟩
  · rw [session_will_quit_true st a]
  · rw [session_will_quit_true st a]
    cases hall : st.activities.all
        (fun x => (st.willQuitAgreed ++ [a]).contains x)
    · rw [if_neg (by simp [hall])]
      simp only [List.mem_nil_iff, false_iff]
      intro hcon
      have htr : (st.activities.all
          fun x => (st.willQuitAgreed ++ [a]).contains x) = true := by
        rw [List.all_eq_true]
        intro x hx
        simpa using hcon x hx
      rw [htr] at hall
      exact absurd hall (by decide)
    · rw [if_pos (by simp [hall])]
      simp only [List.mem_singleton, true_iff]
      rw [List.all_eq_true] at hall
      intro x hx
      have := hall x hx
      simpa using this

/-- C10 witness: two registered activities; after the second agrees the
session forwards `True`. -/
theorem C10_session_will_quit_witness :
    session_will_quit stSession 2 false =
      ({ stSession with willQuitAgreed := [] }, [Event.xsmpWillQuit false]) ∧
    (session_will_quit stSession 2 true).1.willQuitAgreed =
      stSession.willQuitAgreed ++ [2] ∧
    (Event.xsmpWillQuit true ∈ (session_will_quit stSession 2 true).2 ↔
      ∀ x ∈ stSession.activities, x ∈ stSession.willQuitAgreed ++ [2]) :=
  C10_session_will_quit stSession 2

end SugarActivity
